import Mathlib

/- Shallow embedding of src/streambyte.hpp: mrt::istreambyte_iterator (the
   BlockReadCursor of the spec) and mrt::ostreambyte_iterator (the
   BlockWriteSink).

   Modelling conventions.
   Bytes and chars are Nat values below 256 (the bit pattern of the 8-bit
   cell).  On the platforms the header targets (MSVC and gcc on x86-64,
   selected by the MRT_HARDWARE_CI_SIZE macro) plain char is signed, so the
   integral promotion char to int performed inside
   traits_type::eq_int_type(traits_type::eof(), c) sign-extends: the chars
   128..255 promote to the negative ints -128..-1, and the char 0xFF promotes
   to -1, which is exactly char_traits eof.  size_t arithmetic wraps modulo
   2^64.  Dereferencing a null streambuf pointer is undefined behaviour and is
   modelled by Option.none results.  The borrowed streambuf is folded into the
   iterator state (exactly one cursor drives a given stream, per spec section
   5): a readable streambuf is the list of its not-yet-extracted bytes, a
   writable streambuf records the accepted bytes, the remaining acceptance
   capacity and the number of sputn calls received. -/

/-- Integral promotion of an 8-bit signed char (stored as its bit pattern, a
Nat below 256) to int, as performed on x86-64. -/
def charToInt (c : Nat) : Int :=
  if c < 128 then (c : Int) else (c : Int) - 256

/-- traits_type::eof() of std::char_traits of char. -/
def eof_int : Int := -1

/-- traits_type::eq_int_type(traits_type::eof(), c) after promoting the char
c: true exactly for the byte 0xFF = 255. -/
def eq_eof (c : Nat) : Bool := charToInt c == eof_int

/-- Wrapping decrement of a size_t value (prefix operator-- on an unsigned
64-bit integer: 0 wraps to 2^64 - 1). -/
def size_dec (x : Nat) : Nat := if x = 0 then 2 ^ 64 - 1 else x - 1

/-- State of mrt::istreambyte_iterator with buffer capacity M
(streambyte.hpp lines 41..200).  m_streambuf is none for a null pointer and
some rest for a borrowed streambuf whose unread content is rest.  All fields
are mutable in the source, so const member functions update them too. -/
structure istreambyte_iterator where
  m_value_valid : Bool
  m_to_read : Nat
  m_buf_pos : Nat
  m_streambuf : Option (List Nat)
  m_buf : List Nat
deriving DecidableEq

/-- _current (streambyte.hpp line 151): the char at the current buffer
offset. -/
def current (s : istreambyte_iterator) : Nat :=
  s.m_buf.getD s.m_buf_pos 0

/-- _read_block (lines 185..192): sgetn up to M bytes into the front of the
buffer, record the count in m_to_read, reset m_buf_pos, and drop the
streambuf pointer on a short read.  none models the null-pointer dereference
m_streambuf->sgetn when the pointer is null. -/
def read_block (M : Nat) (s : istreambyte_iterator) : Option istreambyte_iterator :=
  match s.m_streambuf with
  | none => none
  | some data =>
      let got := data.take M
      some { s with
        m_to_read := got.length
        m_buf_pos := 0
        m_streambuf := if got.length < M then none else some (data.drop M)
        m_buf := got ++ s.m_buf.drop got.length }

/-- _bump (lines 156..166): advance the offset, decrement m_to_read (size_t
wrap included), refill on buffer wrap, and return the new current char. -/
def bump (M : Nat) (s : istreambyte_iterator) : Option (Nat × istreambyte_iterator) :=
  let s1 := { s with
    m_buf_pos := s.m_buf_pos + 1
    m_to_read := size_dec s.m_to_read }
  if M ≤ s1.m_buf_pos then
    (read_block M s1).map (fun s2 => (current s2, s2))
  else
    some (current s1, s1)

/-- _increment (lines 168..175): at the recorded end keep the end state;
otherwise bump, treating a bumped char equal to eof as end of data. -/
def increment (M : Nat) (s : istreambyte_iterator) : Option istreambyte_iterator :=
  if s.m_streambuf = none ∧ s.m_to_read = 0 then
    some { s with m_streambuf := none, m_value_valid := true }
  else
    match bump M s with
    | none => none
    | some (c, s1) =>
        if eq_eof c then some { s1 with m_streambuf := none, m_value_valid := true }
        else some { s1 with m_value_valid := false }

/-- _peek (lines 177..183): drop the streambuf pointer at the recorded end or
when the current char compares equal to eof, then mark the value valid. -/
def peek (s : istreambyte_iterator) : istreambyte_iterator :=
  if (s.m_streambuf = none ∧ s.m_to_read = 0) ∨ eq_eof (current s) then
    { s with m_streambuf := none, m_value_valid := true }
  else
    { s with m_value_valid := true }

/-- The peek-if-not-valid step performed by operator*, operator++(int) and
equal before they read the state. -/
def afterPeek (s : istreambyte_iterator) : istreambyte_iterator :=
  if s.m_value_valid then s else peek s

/-- operator* (lines 104..111): peek if needed, then deliver the current char
as a std::byte.  Returns the byte together with the updated iterator (the
method is const but writes the mutable fields). -/
def deref (s : istreambyte_iterator) : Nat × istreambyte_iterator :=
  let s1 := afterPeek s
  (current s1, s1)

/-- The proxy returned by operator++(int) (lines 61..79).  Its m_buf member
is a reference to the iterator's buffer, not a copy, so no buffer is stored
here; dereferencing the proxy reads the iterator's buffer as it is at that
later moment. -/
structure istreambyte_proxy where
  m_to_read : Nat
  m_buf_pos : Nat
  m_streambuf : Option (List Nat)
deriving DecidableEq

/-- operator* of the proxy (lines 63..66): reads the referenced buffer, passed
here explicitly, at the stored offset. -/
def proxy_deref (p : istreambyte_proxy) (buf : List Nat) : Nat :=
  buf.getD p.m_buf_pos 0

/-- operator++(int) (lines 119..128): peek if needed, pre-decrement the
member m_to_read while building the proxy, then advance via operator++.
none models the null-pointer dereference a wrapped advance can reach. -/
def postIncrement (M : Nat) (s : istreambyte_iterator) :
    Option (istreambyte_proxy × istreambyte_iterator) :=
  let s1 := afterPeek s
  let s2 := { s1 with m_to_read := size_dec s1.m_to_read }
  let tmp : istreambyte_proxy := ⟨s2.m_to_read, s2.m_buf_pos, s2.m_streambuf⟩
  (increment M s2).map (fun s3 => (tmp, s3))

/-- equal (lines 130..140): peek both sides if needed, then compare.  The
m_to_read == 0 test is applied to the left operand only.  Returns the boolean
together with both updated iterators. -/
def equal (a b : istreambyte_iterator) :
    Bool × istreambyte_iterator × istreambyte_iterator :=
  let a1 := afterPeek a
  let b1 := afterPeek b
  ((a1.m_to_read == 0 && a1.m_streambuf.isNone && b1.m_streambuf.isNone)
      || (a1.m_streambuf.isSome && b1.m_streambuf.isSome),
    a1, b1)

/-- Constructors (lines 82..97): the default constructor builds the end
sentinel (null streambuf, zeroed buffer); construction from a streambuf
performs an immediate first block read.  read_block is total on a non-null
streambuf, so the getD default branch is unreachable. -/
def mkCursor (M : Nat) (sb : Option (List Nat)) : istreambyte_iterator :=
  let s0 : istreambyte_iterator := ⟨false, 0, 0, sb, List.replicate M 0⟩
  match sb with
  | none => s0
  | some _ => (read_block M s0).getD s0

/-- Result of driving a read loop: crashed means undefined behaviour was
reached (a null streambuf dereference), outOfFuel means the step bound ran
out, ok lists the bytes delivered before the cursor compared equal to the
end sentinel. -/
inductive ReadRes where
  | crashed : ReadRes
  | outOfFuel : ReadRes
  | ok : List Nat → ReadRes
deriving DecidableEq

/-- The canonical consumption loop over a cursor c and the end sentinel e,
as test.cpp runs it (vector range construction, std::copy): while c is not
equal to e, produce the dereferenced byte and advance with operator++. -/
def readLoop (M : Nat) : Nat → istreambyte_iterator → istreambyte_iterator →
    List Nat → ReadRes
  | 0, _, _, _ => ReadRes.outOfFuel
  | fuel + 1, c, e, acc =>
      match equal c e with
      | (eqb, c1, e1) =>
          if eqb then ReadRes.ok acc.reverse
          else
            let v := (deref c1).1
            match increment M (deref c1).2 with
            | none => ReadRes.crashed
            | some c2 => readLoop M fuel c2 e1 (v :: acc)

/-- Read everything from an in-memory stream holding S through a cursor of
capacity M, with enough fuel for the whole stream plus the final block. -/
def readAll (M : Nat) (S : List Nat) : ReadRes :=
  readLoop M (S.length + M + 8) (mkCursor M (some S)) (mkCursor M none) []

/-- A borrowed writable streambuf, the abstract write_block primitive of spec
section 6: the bytes accepted so far, an optional remaining acceptance
capacity (none means every write is accepted in full, as with an in-memory
stringbuf), and a count of the sputn calls received. -/
structure WStream where
  cap : Option Nat
  content : List Nat
  calls : Nat
deriving DecidableEq

/-- sputn: accept up to the remaining capacity and return the count actually
accepted. -/
def sputn (w : WStream) (data : List Nat) : Nat × WStream :=
  match w.cap with
  | none =>
      (data.length,
        { w with content := w.content ++ data, calls := w.calls + 1 })
  | some cl =>
      let k := min data.length cl
      (k,
        { cap := some (cl - k), content := w.content ++ data.take k,
          calls := w.calls + 1 })

/-- State of mrt::ostreambyte_iterator with buffer capacity N (streambyte.hpp
lines 218..319).  m_streambuf is true when the stored streambuf pointer is
non-null; the pointed-to streambuf state is threaded separately as a
WStream. -/
structure ostreambyte_iterator where
  m_failure : Bool
  m_streambuf : Bool
  m_buf_pos : Nat
  m_buf : List Nat
deriving DecidableEq

/-- Constructor (lines 238..240): failure clear, empty zeroed buffer; a null
streambuf pointer is accepted without a check. -/
def mkOst (N : Nat) (hasRes : Bool) : ostreambyte_iterator :=
  ⟨false, hasRes, 0, List.replicate N 0⟩

/-- _commit (lines 284..287): sputn the staged prefix of the buffer and
report whether the full count was accepted.  There is no null guard:
none models the null-pointer dereference m_streambuf->sputn. -/
def commit (s : ostreambyte_iterator) (w : WStream) : Option (Bool × WStream) :=
  if s.m_streambuf then
    let current_size := s.m_buf_pos
    let r := sputn w (s.m_buf.take current_size)
    some (r.1 == current_size, r.2)
  else none

/-- _clear_buffer (lines 304..307). -/
def clear_buffer (s : ostreambyte_iterator) : ostreambyte_iterator :=
  { s with m_buf_pos := 0 }

/-- _put (lines 289..302): stage the char; when the buffer becomes full,
commit and clear it whatever the outcome, and return (char)eof, bit pattern
0xFF = 255, in place of the staged char when the commit came up short. -/
def put (N : Nat) (s : ostreambyte_iterator) (w : WStream) (c : Nat) :
    Option (Nat × ostreambyte_iterator × WStream) :=
  let s1 := { s with
    m_buf := s.m_buf.set s.m_buf_pos c
    m_buf_pos := s.m_buf_pos + 1 }
  if s1.m_buf_pos = N then
    match commit s1 w with
    | none => none
    | some (ok, w1) => some (if ok then c else 255, clear_buffer s1, w1)
  else
    some (c, s1, w)

/-- operator= (lines 257..263): with a null streambuf set m_failure without
staging anything; otherwise delegate to _put and set m_failure when the
returned char compares equal to eof after integral promotion. -/
def assign (N : Nat) (s : ostreambyte_iterator) (w : WStream) (rhs : Nat) :
    Option (ostreambyte_iterator × WStream) :=
  if s.m_streambuf then
    match put N s w rhs with
    | none => none
    | some (c, s1, w1) =>
        some (if eq_eof c then { s1 with m_failure := true } else s1, w1)
  else some ({ s with m_failure := true }, w)

/-- Copy constructor (lines 246..251): the copy takes over m_failure and the
streambuf pointer with a fresh empty buffer; the source is then committed,
the commit result is discarded, and the source buffer is cleared.  Returns
the copy, the updated source and the updated stream. -/
def copy_construct (N : Nat) (rhs : ostreambyte_iterator) (w : WStream) :
    Option (ostreambyte_iterator × ostreambyte_iterator × WStream) :=
  let t : ostreambyte_iterator := ⟨rhs.m_failure, rhs.m_streambuf, 0, List.replicate N 0⟩
  match commit rhs w with
  | none => none
  | some r => some (t, clear_buffer rhs, r.2)

/-- Destructor (lines 253..255): one unconditional commit, result ignored. -/
def destroy (s : ostreambyte_iterator) (w : WStream) : Option WStream :=
  (commit s w).map Prod.snd

/-- flush_now of spec section 4.2: the commit-then-clear sequence that the
copy constructor performs on its source (_commit on lines 284..287 followed
by _clear_buffer on lines 304..307). -/
def flush_now (s : ostreambyte_iterator) (w : WStream) :
    Option (ostreambyte_iterator × WStream) :=
  (commit s w).map (fun r => (clear_buffer s, r.2))

/-- Write every byte of S in order through a freshly constructed sink of
capacity N (the std::copy loop of test.cpp case 1). -/
def writeAll (N : Nat) (S : List Nat) (w : WStream) :
    Option (ostreambyte_iterator × WStream) :=
  S.foldlM (fun sw b => assign N sw.1 sw.2 b) (mkOst N true, w)

/-- Round trip of spec section 8: write S through a sink of capacity N into
an empty unbounded in-memory resource, tear the sink down so the tail is
flushed, then read the resulting content back through a cursor of capacity
M. -/
def roundTrip (N M : Nat) (S : List Nat) : ReadRes :=
  match writeAll N S ⟨none, [], 0⟩ with
  | none => ReadRes.crashed
  | some sw =>
      match destroy sw.1 sw.2 with
      | none => ReadRes.crashed
      | some w2 => readAll M w2.content

/-- Helper: every sputn call, whatever it accepts, bumps the call counter by
exactly one. -/
theorem sputn_calls (w : WStream) (data : List Nat) :
    (sputn w data).2.calls = w.calls + 1 := by
  obtain ⟨cap, content, calls⟩ := w
  cases cap <;> rfl

/-- Helper: a flush of an empty buffer is a zero-length transfer: the sink is
returned unchanged and the stream records one more call but no new content. -/
theorem flush_now_empty (s : ostreambyte_iterator) (w : WStream)
    (h : s.m_streambuf = true) (hp : s.m_buf_pos = 0) :
    flush_now s w = some (s, { w with calls := w.calls + 1 }) := by
  obtain ⟨f, sb, pos, buf⟩ := s
  obtain ⟨cap, content, calls⟩ := w
  dsimp only at h hp
  subst h hp
  cases cap <;> simp [flush_now, commit, sputn, clear_buffer]

/-- C1: writing a byte sequence through the sink and reading it back is
claimed to reproduce the sequence for every S and all capacities.  At
S = [0xFF], N = M = 1, the write succeeds (the resource holds [255]) but the
read back reaches undefined behaviour: the cursor treats the buffered char
0xFF as eof, drops its streambuf mid-block, and the next advance calls sgetn
through the null pointer, so the round trip does not yield S. -/
theorem roundTrip_crashes_on_ff_byte :
    roundTrip 1 1 [255] = ReadRes.crashed ∧ ReadRes.crashed ≠ ReadRes.ok [255] := by
  decide

/-- C2: the claim says only a short block read moves a live cursor to the
exhausted state, never a dereference over a fully-read block.  With capacity
M = 1 over the stream [0xFF, 0x41], the first block read is full (m_to_read
= 1 = M, streambuf still set), yet a single dereference, which delivers the
byte 0xFF, nulls the streambuf: the sign-extended char 0xFF compares equal
to eof inside _peek. -/
theorem deref_ff_byte_exhausts_live_cursor :
    (mkCursor 1 (some [255, 65])).m_streambuf = some [65] ∧
    (mkCursor 1 (some [255, 65])).m_to_read = 1 ∧
    (deref (mkCursor 1 (some [255, 65]))).1 = 255 ∧
    (deref (mkCursor 1 (some [255, 65]))).2.m_streambuf = none := by
  decide

/-- C3: the claim says the post-increment proxy freezes the pre-advance byte
even across a refill and leaves the cursor exactly as a plain advance would.
With M = 1 over [0x61, 0x62] the pre-advance byte is 0x61, but the proxy
holds the buffer by reference, so after the refill it dereferences to 0x62.
With M = 4 over [0x61, 0x62] the post-increment pre-decrements m_to_read
before the advance decrements it again: afterwards the cursor compares equal
to the end sentinel (one byte lost), while a plain advance leaves m_to_read
= 1 and the cursor unequal to the sentinel. -/
theorem postIncrement_not_snapshot_and_extra_decrement :
    (deref (mkCursor 1 (some [97, 98]))).1 = 97 ∧
    (postIncrement 1 (mkCursor 1 (some [97, 98]))).map
        (fun pc => proxy_deref pc.1 pc.2.m_buf) = some 98 ∧
    (postIncrement 4 (mkCursor 4 (some [97, 98]))).map
        (fun pc => ((equal pc.2 (mkCursor 4 none)).1, pc.2.m_to_read)) = some (true, 0) ∧
    (increment 4 (mkCursor 4 (some [97, 98]))).map
        (fun c2 => ((equal c2 (mkCursor 4 none)).1, c2.m_to_read)) = some (false, 1) := by
  decide

/-- C4: the claim says m_failure becomes true exactly on a short flush or on
an assignment without a resource.  Assigning the byte 0xFF to a fresh sink of
capacity 2 with an unbounded in-memory resource stages the byte (m_buf_pos =
1) and performs no flush at all (zero sputn calls), yet m_failure becomes
true: _put returns the staged char and (char)0xFF promotes to eof. -/
theorem assign_ff_byte_sets_failure_spuriously :
    (mkOst 2 true).m_streambuf = true ∧
    (assign 2 (mkOst 2 true) ⟨none, [], 0⟩ 255).map
        (fun p => (p.1.m_failure, p.1.m_buf_pos, p.2.calls)) = some (true, 1, 0) := by
  decide

/-- C5 counterexample: both cursors below are exhausted in the spec's sense
(streambuf = none): the left one is the default end sentinel, the right one
was built over a one-byte stream with capacity 2, so its final partial block
still holds one consumable byte (m_to_read = 1).  The claim predicts they
compare equal in both argument orders; the code returns true with the
sentinel on the left and false with the cursor on the left. -/
theorem equal_not_symmetric_counterexample :
    (mkCursor 2 (some [97])).m_streambuf = none ∧
    (mkCursor 2 (some [97])).m_to_read = 1 ∧
    (mkCursor 2 none).m_streambuf = none ∧
    (equal (mkCursor 2 none) (mkCursor 2 (some [97]))).1 = true ∧
    (equal (mkCursor 2 (some [97])) (mkCursor 2 none)).1 = false := by
  decide

/-- C5 as amended: equal a b peeks both sides and then returns true iff
either the left operand has m_to_read = 0 and both streambufs are null, or
both streambufs are non-null.  The m_to_read = 0 test applies to the left
operand only, so the predicate is asymmetric: an end sentinel on the left
equals an exhausted cursor still holding consumable final-block bytes, while
with that cursor on the left the comparison returns false. -/
theorem equal_characterization (a b : istreambyte_iterator) :
    (equal a b).1 = true ↔
      ((afterPeek a).m_to_read = 0 ∧ (afterPeek a).m_streambuf = none ∧
        (afterPeek b).m_streambuf = none) ∨
      ((afterPeek a).m_streambuf ≠ none ∧ (afterPeek b).m_streambuf ≠ none) := by
  simp [equal, Bool.or_eq_true, Bool.and_eq_true, beq_iff_eq,
    Option.isNone_iff_eq_none, Option.isSome_iff_ne_none, and_assoc]

/-- C6: the claim says the loop observes exactly len(S) bytes and then equals
the sentinel, for every S.  At S = [0xFF] with capacity M = 1 the loop
delivers the byte and then reaches undefined behaviour (sgetn through the
null streambuf) instead of terminating with one observed byte. -/
theorem readAll_crashes_on_ff_byte :
    readAll 1 [255] = ReadRes.crashed ∧ ReadRes.crashed ≠ ReadRes.ok [255] := by
  decide

/-- C7 (confirmed): for every sink holding a resource, two flush_now calls
with no intervening put make the second flush a zero-length transfer: the
first leaves the buffer empty, and the second returns the sink unchanged and
adds one sputn call carrying no bytes, so no staged byte is ever sent
twice. -/
theorem flush_now_idempotent (s : ostreambyte_iterator) (w : WStream)
    (h : s.m_streambuf = true) :
    ∃ s1 w1, flush_now s w = some (s1, w1) ∧ s1.m_buf_pos = 0 ∧
      flush_now s1 w1 = some (s1, { w1 with calls := w1.calls + 1 }) := by
  refine ⟨clear_buffer s, (sputn w (s.m_buf.take s.m_buf_pos)).2, ?_, rfl, ?_⟩
  · simp [flush_now, commit, h]
  · exact flush_now_empty _ _ h rfl

/-- C7 witness: the idempotence instantiated at a fresh sink of capacity 2
over an empty unbounded stream. -/
theorem flush_now_idempotent_witness :
    (mkOst 2 true).m_streambuf = true ∧
    (∃ s1 w1, flush_now (mkOst 2 true) ⟨none, [], 0⟩ = some (s1, w1) ∧
      s1.m_buf_pos = 0 ∧
      flush_now s1 w1 = some (s1, { w1 with calls := w1.calls + 1 })) :=
  ⟨rfl, flush_now_idempotent (mkOst 2 true) ⟨none, [], 0⟩ rfl⟩

/-- C8 (confirmed): with capacity N at least 1 and the staged count below N,
every completed operation keeps the staged count below N: an assignment
either stays below N or, exactly when the staged byte fills the buffer and a
resource is present, triggers one flush attempt (one sputn call, successful
or not) and resets the count to 0; copy construction leaves both sinks with
count 0; flush_now leaves count 0; and a freshly constructed sink starts at
0 < N. -/
theorem sink_used_invariant (N : Nat) (s : ostreambyte_iterator) (w : WStream)
    (c : Nat) (hN : 1 ≤ N) (hpos : s.m_buf_pos < N) :
    (∃ s1 w1, assign N s w c = some (s1, w1) ∧ s1.m_buf_pos < N ∧
        (s.m_streambuf = true → s.m_buf_pos + 1 = N →
          s1.m_buf_pos = 0 ∧ w1.calls = w.calls + 1)) ∧
    (s.m_streambuf = true →
        (∃ t s2 w2, copy_construct N s w = some (t, s2, w2) ∧
          t.m_buf_pos = 0 ∧ s2.m_buf_pos = 0) ∧
        (∃ s3 w3, flush_now s w = some (s3, w3) ∧ s3.m_buf_pos = 0)) ∧
    (mkOst N true).m_buf_pos < N := by
  refine ⟨?_, ?_, hN⟩
  · by_cases hb : s.m_streambuf = true
    · by_cases hfull : s.m_buf_pos + 1 = N
      · simp only [assign, put, commit, clear_buffer, hb, hfull, if_true]
        refine ⟨_, _, rfl, ?_, fun _ _ => ⟨?_, sputn_calls _ _⟩⟩ <;>
          (split <;> split <;> simp <;> omega)
      · simp only [assign, put, commit, clear_buffer, hb, if_true]
        simp only [hfull, if_false]
        refine ⟨_, _, rfl, ?_, fun _ h2 => h2.elim⟩
        split <;> simp <;> omega
    · refine ⟨{ s with m_failure := true }, w, ?_, hpos, fun hb2 _ => absurd hb2 hb⟩
      simp [assign, hb]
  · intro h
    constructor
    · exact ⟨⟨s.m_failure, s.m_streambuf, 0, List.replicate N 0⟩, clear_buffer s,
        (sputn w (s.m_buf.take s.m_buf_pos)).2, by simp [copy_construct, commit, h],
        rfl, rfl⟩
    · exact ⟨clear_buffer s, (sputn w (s.m_buf.take s.m_buf_pos)).2,
        by simp [flush_now, commit, h], rfl⟩

/-- C8 witness: the invariant instantiated at a fresh sink of capacity 2
over an empty unbounded stream, assigning the byte 7. -/
theorem sink_used_invariant_witness :
    (1 ≤ 2 ∧ (mkOst 2 true).m_buf_pos < 2) ∧
    ((∃ s1 w1, assign 2 (mkOst 2 true) ⟨none, [], 0⟩ 7 = some (s1, w1) ∧
        s1.m_buf_pos < 2 ∧
        ((mkOst 2 true).m_streambuf = true → (mkOst 2 true).m_buf_pos + 1 = 2 →
          s1.m_buf_pos = 0 ∧ w1.calls = (⟨none, [], 0⟩ : WStream).calls + 1)) ∧
      ((mkOst 2 true).m_streambuf = true →
        (∃ t s2 w2, copy_construct 2 (mkOst 2 true) ⟨none, [], 0⟩ = some (t, s2, w2) ∧
          t.m_buf_pos = 0 ∧ s2.m_buf_pos = 0) ∧
        (∃ s3 w3, flush_now (mkOst 2 true) ⟨none, [], 0⟩ = some (s3, w3) ∧
          s3.m_buf_pos = 0)) ∧
      (mkOst 2 true).m_buf_pos < 2) :=
  ⟨⟨by decide, by decide⟩,
    sink_used_invariant 2 (mkOst 2 true) ⟨none, [], 0⟩ 7 (by decide) (by decide)⟩

/-- C9 (confirmed): copy construction from any source sink holding a
resource, over any stream (in particular one that accepts fewer bytes than
are staged), leaves m_failure unchanged on both the copy and the source (the
commit result is discarded), clears both buffers, performs exactly one sputn
call, and appends to the stream at most the staged bytes: whatever the
transfer did not accept is silently dropped. -/
theorem copy_construct_preserves_failure_and_clears (N : Nat)
    (rhs : ostreambyte_iterator) (w : WStream) (h : rhs.m_streambuf = true) :
    ∃ t s2 w2, copy_construct N rhs w = some (t, s2, w2) ∧
      t.m_failure = rhs.m_failure ∧ s2.m_failure = rhs.m_failure ∧
      t.m_buf_pos = 0 ∧ s2.m_buf_pos = 0 ∧ w2.calls = w.calls + 1 ∧
      ∃ k, k ≤ rhs.m_buf_pos ∧
        w2.content = w.content ++ (rhs.m_buf.take rhs.m_buf_pos).take k := by
  refine ⟨⟨rhs.m_failure, rhs.m_streambuf, 0, List.replicate N 0⟩, clear_buffer rhs,
    (sputn w (rhs.m_buf.take rhs.m_buf_pos)).2, ?_, rfl, rfl, rfl, rfl,
    sputn_calls _ _, ?_⟩
  · simp [copy_construct, commit, h]
  · obtain ⟨cap, content, calls⟩ := w
    cases cap with
    | none =>
        exact ⟨rhs.m_buf_pos, le_refl _, by simp [sputn, List.take_take]⟩
    | some cl =>
        refine ⟨min (rhs.m_buf.take rhs.m_buf_pos).length cl, ?_, by simp [sputn]⟩
        exact le_trans (min_le_left _ _)
          (by rw [List.length_take]; exact min_le_left _ _)

/-- C9 witness: a source sink with one staged byte 7 copied over a stream
that accepts nothing (remaining capacity 0): the staged byte is lost, both
failure flags stay as they were, both buffers end empty. -/
theorem copy_construct_preserves_failure_and_clears_witness :
    ((⟨false, true, 1, [7, 0]⟩ : ostreambyte_iterator).m_streambuf = true) ∧
    (∃ t s2 w2,
      copy_construct 2 ⟨false, true, 1, [7, 0]⟩ ⟨some 0, [], 0⟩ = some (t, s2, w2) ∧
      t.m_failure = (⟨false, true, 1, [7, 0]⟩ : ostreambyte_iterator).m_failure ∧
      s2.m_failure = (⟨false, true, 1, [7, 0]⟩ : ostreambyte_iterator).m_failure ∧
      t.m_buf_pos = 0 ∧ s2.m_buf_pos = 0 ∧
      w2.calls = (⟨some 0, [], 0⟩ : WStream).calls + 1 ∧
      ∃ k, k ≤ (⟨false, true, 1, [7, 0]⟩ : ostreambyte_iterator).m_buf_pos ∧
        w2.content = (⟨some 0, [], 0⟩ : WStream).content ++
          (((⟨false, true, 1, [7, 0]⟩ : ostreambyte_iterator).m_buf.take
            (⟨false, true, 1, [7, 0]⟩ : ostreambyte_iterator).m_buf_pos).take k)) :=
  ⟨rfl, copy_construct_preserves_failure_and_clears 2 ⟨false, true, 1, [7, 0]⟩
    ⟨some 0, [], 0⟩ rfl⟩

/-- C10 (confirmed): the destructor performs one unconditional commit: with a
null streambuf pointer it dereferences the null pointer (undefined
behaviour, modelled as none) because the per-assignment null check does not
guard this path, and with a resource present it always issues exactly one
sputn call, even when zero bytes are staged. -/
theorem destructor_commits_unconditionally (s : ostreambyte_iterator) (w : WStream) :
    (s.m_streambuf = false → destroy s w = none) ∧
    (s.m_streambuf = true →
      ∃ w2, destroy s w = some w2 ∧ w2.calls = w.calls + 1) := by
  constructor
  · intro h; simp [destroy, commit, h]
  · intro h
    exact ⟨(sputn w (s.m_buf.take s.m_buf_pos)).2,
      by simp [destroy, commit, h], sputn_calls _ _⟩

/-- C10 witness: destroying a sink constructed with a null streambuf reaches
the null dereference, and destroying a fresh sink with a resource and zero
staged bytes still issues one sputn call. -/
theorem destructor_commits_unconditionally_witness :
    destroy (mkOst 1 false) ⟨none, [], 0⟩ = none ∧
    (∃ w2, destroy (mkOst 1 true) ⟨none, [], 0⟩ = some w2 ∧
      w2.calls = (⟨none, [], 0⟩ : WStream).calls + 1) :=
  ⟨(destructor_commits_unconditionally (mkOst 1 false) ⟨none, [], 0⟩).1 rfl,
    (destructor_commits_unconditionally (mkOst 1 true) ⟨none, [], 0⟩).2 rfl⟩
